import Mathlib

/-
Shallow embedding of the 2SEARX2COOL core:
  - src/engine-bridge/protocol.py        (JsonRpcRequest, JsonRpcResponse, JsonRpcProtocol)
  - src/engine-bridge/engine_registry.py (EngineInfo, EngineRegistry)
  - src/engine-bridge/engine_service.py  (EngineService handlers)
  - src/orchestrator/services/cache_service.py (CacheService)

Python dicts are modeled as insertion-ordered association lists with string
keys; JSON values as the inductive type JVal.  Network and filesystem effects
are modeled as explicit parameters (a pipeline oracle for the per-engine
fetch+parse section, an optional file listing for the engines directory, a
wall-clock Nat for timestamps).  json.loads/json.dumps round-trip is the
identity on the modeled values, so the Redis store holds JVal directly.
-/

/-- A JSON value.  Python floats are modeled as exact rationals. -/
inductive JVal where
  | null
  | bool (b : Bool)
  | num (n : Int)
  | rat (q : ℚ)
  | str (s : String)
  | arr (xs : List JVal)
  | obj (fields : List (String × JVal))


/-- A Python dict with string keys, in insertion order. -/
abbrev Obj := List (String × JVal)

/-- dict.get(k): value of the first (unique) binding of k, if any. -/
def dictGet (d : Obj) (k : String) : Option JVal :=
  (d.find? (fun p => p.1 == k)).map (fun p => p.2)

/-- dict.get(k, default). -/
def dictGetD (d : Obj) (k : String) (v : JVal) : JVal :=
  (dictGet d k).getD v

/-- d[k] = v: update the existing binding in place, else append. -/
def dictSet : Obj → String → JVal → Obj
  | [], k, v => [(k, v)]
  | (k1, v1) :: rest, k, v =>
    if k1 == k then (k1, v) :: rest else (k1, v1) :: dictSet rest k v

/-- Remove a key (used to model the residual kwargs of a handler). -/
def dictRemove (d : Obj) (k : String) : Obj :=
  d.filter (fun p => p.1 != k)

/-- Python truthiness of a JSON value (bool(x)). -/
def JVal.truthy : JVal → Bool
  | .null => false
  | .bool b => b
  | .num n => n != 0
  | .rat q => q != 0
  | .str s => s != ""
  | .arr [] => false
  | .arr (_ :: _) => true
  | .obj [] => false
  | .obj (_ :: _) => true

/-- str.lower(): Python lowercases character by character. -/
def pyLower (s : String) : String := ⟨s.data.map Char.toLower⟩

/-- str.strip(): drop leading and trailing whitespace characters. -/
def pyStrip (s : String) : String :=
  ⟨((s.data.dropWhile Char.isWhitespace).reverse.dropWhile Char.isWhitespace).reverse⟩

/-- str.startswith(p). -/
def pyStartsWith (s p : String) : Bool := p.data.isPrefixOf s.data

/-! ## protocol.py -/

/-- protocol.py lines 11-35, JsonRpcRequest.  The params and id fields keep
the raw JSON values the wire carried (after the defaulting done in init). -/
structure JsonRpcRequest where
  jsonrpc : String
  method : String
  params : JVal
  id : JVal


/-- JsonRpcRequest.init (lines 13-17): params defaults to the empty dict
when falsy, and a falsy id (None in particular) is replaced by a freshly
generated uuid4 string, supplied here as the argument fresh. -/
def JsonRpcRequest.make (method : String) (params : JVal) (id : JVal)
    (fresh : String) : JsonRpcRequest :=
  { jsonrpc := "2.0"
    method := method
    params := if params.truthy then params else .obj []
    id := if id.truthy then id else .str fresh }

/-- data.get("method", "") followed by use as a handler-table key.  A
non-string method value is not a key of the handler dict in the source and
dispatches to method-not-found there; the model maps it to the empty string,
which the service never registers, giving the same dispatch outcome. -/
def methodName : JVal → String
  | .str s => s
  | _ => ""

/-- JsonRpcRequest.from_dict (lines 29-35). -/
def JsonRpcRequest.from_dict (data : Obj) (fresh : String) : JsonRpcRequest :=
  JsonRpcRequest.make
    (methodName (dictGetD data "method" (.str "")))
    (dictGetD data "params" (.obj []))
    (dictGetD data "id" .null)
    fresh

/-- protocol.py lines 38-69, JsonRpcResponse.  result is null unless set;
error is absent or an error object. -/
structure JsonRpcResponse where
  jsonrpc : String
  result : JVal
  error : Option JVal
  id : JVal


/-- JsonRpcResponse.success (lines 57-59). -/
def JsonRpcResponse.mkSuccess (result : JVal) (id : JVal) : JsonRpcResponse :=
  { jsonrpc := "2.0", result := result, error := none, id := id }

/-- JsonRpcResponse.error (lines 61-69): the data field is added to the
error object only when present. -/
def JsonRpcResponse.mkError (code : Int) (message : String) (data : Option JVal)
    (id : JVal) : JsonRpcResponse :=
  { jsonrpc := "2.0"
    result := .null
    error := some (.obj ([("code", .num code), ("message", .str message)] ++
      (match data with | some d => [("data", d)] | none => [])))
    id := id }

def JsonRpcProtocol.PARSE_ERROR : Int := -32700
def JsonRpcProtocol.INVALID_REQUEST : Int := -32600
def JsonRpcProtocol.METHOD_NOT_FOUND : Int := -32601
def JsonRpcProtocol.INVALID_PARAMS : Int := -32602
def JsonRpcProtocol.INTERNAL_ERROR : Int := -32603

/-- Outcome of applying a registered handler to its keyword arguments:
a returned value, a raised TypeError, or any other raised exception. -/
inductive HandlerOutcome where
  | ok (v : JVal)
  | typeError (msg : String)
  | exn (msg : String)

/-- A handler receives the decoded params dict as keyword arguments. -/
abbrev Handler := Obj → HandlerOutcome

/-- The protocol handler table (self.handlers). -/
abbrev Handlers := List (String × Handler)

def findHandler (hs : Handlers) (m : String) : Option Handler :=
  (hs.find? (fun p => p.1 == m)).map (fun p => p.2)

/-- handler(**request.params): unpacking a non-mapping raises TypeError
before the handler body runs. -/
def callHandler (h : Handler) (params : JVal) : HandlerOutcome :=
  match params with
  | .obj kvs => h kvs
  | _ => .typeError "argument after unpacking must be a mapping"

/-- JsonRpcProtocol.handle_request (lines 128-161).  The traceback string of
the internal-error data is modeled by the exception message itself. -/
def JsonRpcProtocol.handle_request (hs : Handlers) (req : JsonRpcRequest) :
    JsonRpcResponse :=
  match findHandler hs req.method with
  | none =>
    .mkError JsonRpcProtocol.METHOD_NOT_FOUND
      ("Method \x27" ++ req.method ++ "\x27 not found") none req.id
  | some h =>
    match callHandler h req.params with
    | .ok v => .mkSuccess v req.id
    | .typeError m =>
      .mkError JsonRpcProtocol.INVALID_PARAMS "Invalid parameters"
        (some (.str m)) req.id
    | .exn m =>
      .mkError JsonRpcProtocol.INTERNAL_ERROR "Internal error"
        (some (.obj [("error", .str m), ("traceback", .str m)])) req.id

/-- One line read from stdin: either json.loads succeeds with a value, or it
raises JSONDecodeError with a message.  End of stream is the end of the
line list. -/
inductive Line where
  | malformed (msg : String)
  | parsed (v : JVal)


/-- Message of the AttributeError raised by from_dict when json.loads yields
a non-dict value (data.get does not exist); its exact text is irrelevant. -/
def attributeErrorMsg : String := "object has no attribute get"

/-- JsonRpcProtocol.read_request (lines 89-115) on one line: returns the
decoded request (if any) and the error responses it sent itself.  It returns
none both at end of stream and after writing a parse/internal error. -/
def JsonRpcProtocol.read_request (fresh : String) :
    Option Line → Option JsonRpcRequest × List JsonRpcResponse
  | none => (none, [])
  | some (.malformed m) =>
    (none, [.mkError JsonRpcProtocol.PARSE_ERROR "Parse error" (some (.str m)) .null])
  | some (.parsed (.obj kvs)) => (some (JsonRpcRequest.from_dict kvs fresh), [])
  | some (.parsed _) =>
    (none, [.mkError JsonRpcProtocol.INTERNAL_ERROR "Internal error"
      (some (.str attributeErrorMsg)) .null])

/-- The methods whose registered handler is applied to keyword arguments by
handle_request for this request (the dispatch reaches the handler exactly
when the method is registered and the params unpack as a mapping). -/
def invokedMethods (hs : Handlers) (req : JsonRpcRequest) : List String :=
  match findHandler hs req.method, req.params with
  | some _, .obj _ => [req.method]
  | _, _ => []

/-- JsonRpcProtocol.run (lines 163-171): read, dispatch, respond, looping
until read_request returns none.  gen k is the uuid4 string generated for
the k-th line if its id is falsy.  Returns the responses written to stdout
and the list of handler invocations, in order. -/
def JsonRpcProtocol.runFrom (hs : Handlers) (gen : Nat → String) :
    Nat → List Line → List JsonRpcResponse × List String
  | _, [] => ([], [])
  | k, line :: rest =>
    match JsonRpcProtocol.read_request (gen k) (some line) with
    | (none, outs) => (outs, [])
    | (some req, outs) =>
      let resp := JsonRpcProtocol.handle_request hs req
      let tail := JsonRpcProtocol.runFrom hs gen (k + 1) rest
      (outs ++ resp :: tail.1, invokedMethods hs req ++ tail.2)

def JsonRpcProtocol.run (hs : Handlers) (gen : Nat → String)
    (lines : List Line) : List JsonRpcResponse × List String :=
  JsonRpcProtocol.runFrom hs gen 0 lines

/-! ## engine_registry.py -/

/-- engine_registry.py lines 13-30, EngineInfo.  hasModule models whether
self.module is set (discovery always sets it before registering). -/
structure EngineInfo where
  name : String
  module_path : String
  categories : List String
  about : Obj
  hasModule : Bool
  enabled : Bool

/-- engine_registry.py lines 33-39, EngineRegistry.  self.engines is a dict
keyed by EngineInfo.name, modeled as the list of its values in insertion
order (the key of each binding equals the name field by construction). -/
structure EngineRegistry where
  engines_dir : String
  engines : List EngineInfo

/-- EngineRegistry.get_engine (lines 90-92). -/
def EngineRegistry.get_engine (reg : EngineRegistry) (name : String) :
    Option EngineInfo :=
  reg.engines.find? (fun e => e.name == name)

/-- EngineRegistry.get_enabled_engines (lines 98-100). -/
def EngineRegistry.get_enabled_engines (reg : EngineRegistry) : List EngineInfo :=
  reg.engines.filter (fun e => e.enabled)

/-- Either a returned value or a raised exception with its message. -/
inductive PyResult (α : Type) where
  | ok (v : α)
  | raised (msg : String)

/-- Outcome of the network-and-parse section of EngineRegistry.search
(lines 111-194) for a given engine name, query and params: the parsed raw
result dicts before engine tagging, or an uncaught exception (for example
the engine module raising inside request or response).  This section only
does HTTP traffic and adapter code, so it enters the model as an oracle. -/
abbrev Pipeline := String → String → Obj → PyResult (List Obj)

/-- EngineRegistry.search (lines 102-194): the registry checks (not found /
disabled / module missing) raise ValueError; otherwise the pipeline runs and
every result dict is tagged with the engine name. -/
def EngineRegistry.search (reg : EngineRegistry) (pl : Pipeline)
    (engine_name query : String) (params : Obj) : PyResult (List Obj) :=
  match reg.get_engine engine_name with
  | none => .raised ("Engine \x27" ++ engine_name ++ "\x27 not found or disabled")
  | some engine =>
    if engine.enabled = false then
      .raised ("Engine \x27" ++ engine_name ++ "\x27 not found or disabled")
    else if engine.hasModule = false then
      .raised ("Engine \x27" ++ engine_name ++ "\x27 module not loaded")
    else
      match pl engine_name query params with
      | .ok results =>
        .ok (results.map (fun r => dictSet r "engine" (.str engine_name)))
      | .raised m => .raised m

/-- Trace events of one search_all call: entry into and return from the
synchronous self.search call of one loop iteration. -/
inductive Ev where
  | start (name : String)
  | finish (name : String)
deriving DecidableEq

/-- EngineRegistry.search_all (lines 196-207): a sequential for-loop over
the enabled engines; each iteration runs the whole per-engine pipeline,
appends its results on success and swallows its exception on failure.  The
second component records the start/finish trace of the pipeline calls. -/
def EngineRegistry.search_all_traced (reg : EngineRegistry) (pl : Pipeline)
    (query : String) (params : Obj) : List Obj × List Ev :=
  reg.get_enabled_engines.foldl
    (fun acc engine =>
      ((match reg.search pl engine.name query params with
        | .ok results => acc.1 ++ results
        | .raised _ => acc.1),
       acc.2 ++ [.start engine.name, .finish engine.name]))
    ([], [])

def EngineRegistry.search_all (reg : EngineRegistry) (pl : Pipeline)
    (query : String) (params : Obj) : List Obj :=
  (reg.search_all_traced pl query params).1

/-! ### Discovery (engine_registry.py lines 41-88) -/

/-- What loading one candidate file does, as observed by _load_engine_info:
whether spec_from_file_location yields a loadable spec, whether exec_module
raises, whether the module has request and response callables, and its
categories/about attributes when present. -/
structure ModuleFile where
  fileName : String
  specOk : Bool
  execRaises : Option String
  hasRequest : Bool
  hasResponse : Bool
  categories : Option (List String)
  about : Option Obj

/-- _load_engine_info (lines 60-88): returns none for an unloadable spec or
a module without both request and response; propagates exec_module failures;
otherwise builds the EngineInfo with defaults and module set. -/
def loadEngineInfo (dir : String) (f : ModuleFile) : PyResult (Option EngineInfo) :=
  if f.specOk = false then .ok none
  else
    match f.execRaises with
    | some m => .raised m
    | none =>
      if f.hasRequest = false then .ok none
      else if f.hasResponse = false then .ok none
      else
        .ok (some
          { name := f.fileName.dropRight 3
            module_path := dir ++ "/" ++ f.fileName
            categories := f.categories.getD ["general"]
            about := f.about.getD []
            hasModule := true
            enabled := true })

/-- self.engines[name] = info: dict insertion (replace in place or append). -/
def dictInsertEngine : List EngineInfo → EngineInfo → List EngineInfo
  | [], e => [e]
  | e1 :: rest, e =>
    if e1.name == e.name then e :: rest else e1 :: dictInsertEngine rest e

/-- _discover_engines (lines 41-58): a missing directory raises ValueError;
otherwise every .py file is tried, skipping names starting with two
underscores and base_music.py, and any per-file failure is caught and
logged, the file contributing no engine. -/
def discoverEngines (dir : String) (listing : Option (List ModuleFile)) :
    Except String (List EngineInfo) :=
  match listing with
  | none => .error ("Engines directory not found: " ++ dir)
  | some files =>
    .ok (files.foldl
      (fun acc f =>
        if pyStartsWith f.fileName "__" || f.fileName == "base_music.py" then acc
        else
          match loadEngineInfo dir f with
          | .raised _ => acc
          | .ok none => acc
          | .ok (some info) => dictInsertEngine acc info)
      [])

/-- EngineRegistry init (lines 36-39): discovery runs inside the
constructor, so its ValueError escapes construction.  listing is the glob
of *.py files of the engines directory, none when the directory is absent. -/
def EngineRegistry.init (dir : String) (listing : Option (List ModuleFile)) :
    Except String EngineRegistry :=
  match discoverEngines dir listing with
  | .error m => .error m
  | .ok engines => .ok { engines_dir := dir, engines := engines }

/-- The engine a file contributes to the registry, if any: none when the
file is skipped by name, fails to load, or lacks the adapter contract. -/
def loadYields (dir : String) (f : ModuleFile) : Option EngineInfo :=
  if pyStartsWith f.fileName "__" || f.fileName == "base_music.py" then none
  else
    match loadEngineInfo dir f with
    | .ok (some info) => some info
    | _ => none

/-! ## engine_service.py -/

/-- The group key of one result dict: result.get with default "unknown".
Every result produced by search_all carries a string tag set by dictSet, so
only the string case is reachable there. -/
def engineTag (r : Obj) : String :=
  match dictGet r "engine" with
  | some (.str s) => s
  | some _ => "unknown"
  | none => "unknown"

/-- Insertion-ordered grouping used by handle_search_all (lines 79-84). -/
def addToGroup (gs : List (String × List Obj)) (k : String) (r : Obj) :
    List (String × List Obj) :=
  match gs with
  | [] => [(k, [r])]
  | (k1, v1) :: rest =>
    if k1 == k then (k1, v1 ++ [r]) :: rest else (k1, v1) :: addToGroup rest k r

def groupByEngine (rs : List Obj) : List (String × List Obj) :=
  rs.foldl (fun gs r => addToGroup gs (engineTag r) r) []

/-- EngineService.handle_search (lines 47-69): any exception from
registry.search is caught and turned into a success=false payload.  rt
models the measured wall-clock response time. -/
def EngineService.handle_search (reg : EngineRegistry) (pl : Pipeline)
    (engine query : String) (params : Obj) (rt : Int) : Obj :=
  match reg.search pl engine query params with
  | .ok results =>
    [("success", .bool true), ("engine", .str engine), ("query", .str query),
     ("results", .arr (results.map .obj)), ("count", .num results.length),
     ("response_time", .num rt)]
  | .raised e =>
    [("success", .bool false), ("engine", .str engine), ("query", .str query),
     ("error", .str e), ("response_time", .num rt)]

/-- EngineService.handle_search_all (lines 71-101).  registry.search_all
catches all per-engine failures itself and the grouping loop cannot raise,
so the except-branch of the source is unreachable in the model. -/
def EngineService.handle_search_all (reg : EngineRegistry) (pl : Pipeline)
    (query : String) (params : Obj) (rt : Int) : Obj :=
  [("success", .bool true), ("query", .str query),
   ("results", .arr ((reg.search_all pl query params).map .obj)),
   ("results_by_engine", .obj ((groupByEngine (reg.search_all pl query params)).map
     (fun g => (g.1, .arr (g.2.map .obj))))),
   ("total_count", .num (reg.search_all pl query params).length),
   ("engine_count", .num (groupByEngine (reg.search_all pl query params)).length),
   ("response_time", .num rt)]

/-- The search handler as registered on the protocol (engine_service.py
line 29): binds the engine and query keywords, passes the rest as params.
Missing required keywords make the keyword binding raise TypeError. -/
def EngineService.searchHandler (reg : EngineRegistry) (pl : Pipeline)
    (rt : Int) : Handler := fun kvs =>
  match dictGet kvs "engine", dictGet kvs "query" with
  | some (.str engine), some (.str query) =>
    .ok (.obj (EngineService.handle_search reg pl engine query
      (dictRemove (dictRemove kvs "engine") "query") rt))
  | _, _ => .typeError "handle_search missing required keyword arguments"

/-- The search_all handler as registered on the protocol (line 30). -/
def EngineService.searchAllHandler (reg : EngineRegistry) (pl : Pipeline)
    (rt : Int) : Handler := fun kvs =>
  match dictGet kvs "query" with
  | some (.str query) =>
    .ok (.obj (EngineService.handle_search_all reg pl query
      (dictRemove kvs "query") rt))
  | _ => .typeError "handle_search_all missing required keyword arguments"

/-- The slice of the handler table of EngineService (lines 27-33) needed by
the dispatched claims; the remaining methods touch registry state that the
claims never exercise, and dispatch treats the table uniformly. -/
def EngineService.handlers (reg : EngineRegistry) (pl : Pipeline) (rt : Int) :
    Handlers :=
  [("search", EngineService.searchHandler reg pl rt),
   ("search_all", EngineService.searchAllHandler reg pl rt)]

/-! ## cache_service.py -/

/-- Python sorted() on a list of strings: the lexicographically sorted
rearrangement, as a function of the underlying multiset. -/
def sortStrings (l : List String) : List String :=
  (l : Multiset String).sort (fun a b => a ≤ b)

/-- The engines_str / categories_str computation of _generate_cache_key
(lines 58-59): a falsy argument (None or the empty list) gives "all". -/
def joinField : Option (List String) → String
  | some (x :: xs) => String.intercalate "," (sortStrings (x :: xs))
  | some [] => "all"
  | none => "all"

/-- CacheService construction state (lines 19-34): md5hex abstracts the MD5
hex digest, an unspecified deterministic function of the key string;
connected models whether self.redis_client survived _connect. -/
structure CacheService where
  default_ttl : Nat
  max_results_per_query : Nat
  connected : Bool
  md5hex : String → String

/-- CacheService._generate_cache_key (lines 53-72). -/
def CacheService.generate_cache_key (svc : CacheService) (query : String)
    (engines categories : Option (List String)) : String :=
  let query_lower := pyStrip (pyLower query)
  let key_string := "query:" ++ query_lower ++ "|engines:" ++ joinField engines
    ++ "|categories:" ++ joinField categories
  "search:v1:" ++ (svc.md5hex key_string).take 16

/-- One Redis key with its value and absolute expiry instant. -/
structure StoredEntry where
  key : String
  value : JVal
  expireAt : Nat

/-- The Redis database slice the cache touches: the search:v1 entries, the
cache:stats hash counters and the popular:queries sorted set. -/
structure RedisState where
  entries : List StoredEntry
  hits : Nat
  misses : Nat
  sets : Nat
  popular : List (String × Nat)

/-- redis GET at instant now: an entry is visible strictly before its
expiry (SETEX key ttl keeps the key alive for ttl seconds). -/
def RedisState.lookupKey (st : RedisState) (now : Nat) (k : String) : Option JVal :=
  match st.entries.find? (fun e => e.key == k) with
  | some e => if now < e.expireAt then some e.value else none
  | none => none

/-- redis SETEX: overwrite the binding in place or append it. -/
def upsertEntry : List StoredEntry → StoredEntry → List StoredEntry
  | [], e => [e]
  | e1 :: rest, e =>
    if e1.key == e.key then e :: rest else e1 :: upsertEntry rest e

/-- redis ZINCRBY popular:queries 1 query. -/
def zincr : List (String × Nat) → String → List (String × Nat)
  | [], q => [(q, 1)]
  | (q1, n) :: rest, q =>
    if q1 == q then (q1, n + 1) :: rest else (q1, n) :: zincr rest q

/-- CacheService.get (lines 74-104): on a disconnected client every get is
a miss without touching counters; otherwise a fresh entry is a hit (the
stored json string is never falsy) and anything else a miss. -/
def CacheService.get (svc : CacheService) (st : RedisState) (now : Nat)
    (query : String) (engines categories : Option (List String)) :
    Option JVal × RedisState :=
  if svc.connected = false then (none, st)
  else
    match st.lookupKey now (svc.generate_cache_key query engines categories) with
    | some v => (some v, { st with hits := st.hits + 1 })
    | none => (none, { st with misses := st.misses + 1 })

/-- ttl = ttl or self.default_ttl (line 127): None and 0 are falsy. -/
def CacheService.effTtl (svc : CacheService) : Option Nat → Nat
  | some t => if t == 0 then svc.default_ttl else t
  | none => svc.default_ttl

/-- datetime.utcnow().isoformat(): an uninterpreted rendering of now. -/
def isoTimestamp (now : Nat) : String := "1970-01-01T00:00:" ++ toString now

/-- The truncation step of CacheService.set (lines 130-134).  A non-array
value under the results key would make len() raise on a number and is left
untouched here; the claims only exercise array payloads. -/
def truncResults (maxR : Nat) (results : Obj) : Obj :=
  match dictGet results "results" with
  | some (.arr rs) =>
    if maxR < rs.length then
      dictSet (dictSet results "results" (.arr (rs.take maxR)))
        "truncated" (.bool true)
    else results
  | some _ => results
  | none => results

/-- CacheService.set (lines 106-163): build cache_data by merging the cache
metadata into the (possibly truncated) results dict, SETEX it under the
derived key, bump the sets counter and the popularity of the raw query. -/
def CacheService.set (svc : CacheService) (st : RedisState) (now : Nat)
    (query : String) (results : Obj) (engines categories : Option (List String))
    (ttlArg : Option Nat) : Bool × RedisState :=
  if svc.connected = false then (false, st)
  else
    let cache_key := svc.generate_cache_key query engines categories
    let ttl := svc.effTtl ttlArg
    let cache_data := dictSet (dictSet (dictSet
      (truncResults svc.max_results_per_query results)
      "cached_at" (.str (isoTimestamp now)))
      "cache_ttl" (.num ttl))
      "cache_key" (.str cache_key)
    (true,
      { entries := upsertEntry st.entries
          { key := cache_key, value := .obj cache_data, expireAt := now + ttl }
        hits := st.hits
        misses := st.misses
        sets := st.sets + 1
        popular := zincr st.popular query })

/-- Round half to even, the rounding of Python round(). -/
def roundHalfEven (q : ℚ) : ℤ :=
  if q - ⌊q⌋ < 1 / 2 then ⌊q⌋
  else if (1 : ℚ) / 2 < q - ⌊q⌋ then ⌊q⌋ + 1
  else if Even ⌊q⌋ then ⌊q⌋ else ⌊q⌋ + 1

/-- round(x, 2): two-decimal rounding.  The source computes on binary
floats; the model computes the same expression exactly over the rationals. -/
def pyRound2 (q : ℚ) : ℚ := (roundHalfEven (q * 100) : ℚ) / 100

/-- CacheService._calculate_hit_rate (lines 225-234). -/
def calculate_hit_rate (hits misses : Nat) : ℚ :=
  if hits + misses == 0 then 0
  else pyRound2 ((hits : ℚ) / ((hits : ℚ) + (misses : ℚ)) * 100)

/-- ZREVRANGE ordering: score descending, ties by member reverse
lexicographically, via insertion into a sorted list. -/
def insertPopularityDesc (p : String × Nat) :
    List (String × Nat) → List (String × Nat)
  | [] => [p]
  | q :: rest =>
    if q.2 < p.2 || (q.2 == p.2 && decide (q.1 ≤ p.1)) then p :: q :: rest
    else q :: insertPopularityDesc p rest

def topQueries (pop : List (String × Nat)) : List (String × Nat) :=
  (pop.foldr insertPopularityDesc []).take 10

/-- CacheService.get_stats (lines 193-223): counters, the computed hit
rate, the count of live search:v1 keys, and the ten most popular queries. -/
def CacheService.get_stats (svc : CacheService) (st : RedisState) (now : Nat) :
    Obj :=
  if svc.connected = false then [("status", .str "disconnected")]
  else
    [("status", .str "connected"),
     ("hits", .num st.hits),
     ("misses", .num st.misses),
     ("sets", .num st.sets),
     ("hit_rate", .rat (calculate_hit_rate st.hits st.misses)),
     ("cache_entries", .num (st.entries.filter
       (fun e => pyStartsWith e.key "search:v1:" && decide (now < e.expireAt))).length),
     ("popular_queries", .arr ((topQueries st.popular).map
       (fun p => .obj [("query", .str p.1), ("count", .num p.2)])))]

/-! ## Theorems -/

/-- A liveness handler used by the concrete protocol scenarios. -/
def pingHandler : Handler := fun _ => .ok (.str "pong")

def handlers0 : Handlers := [("ping", pingHandler)]

/-- A concrete uuid4 supply for the protocol scenarios. -/
def gen0 : Nat → String := fun k => "uuid-" ++ toString k

/-- While every consumed line decodes to a JSON object, the loop keeps
going: running a stream splits at any such prefix. -/
theorem runFrom_append (hs : Handlers) (gen : Nat → String)
    (good tail : List Line) :
    ∀ k : Nat, (∀ l ∈ good, ∃ kvs, l = Line.parsed (.obj kvs)) →
    JsonRpcProtocol.runFrom hs gen k (good ++ tail)
      = ((JsonRpcProtocol.runFrom hs gen k good).1
           ++ (JsonRpcProtocol.runFrom hs gen (k + good.length) tail).1,
         (JsonRpcProtocol.runFrom hs gen k good).2
           ++ (JsonRpcProtocol.runFrom hs gen (k + good.length) tail).2) := by
  induction good with
  | nil => intro k _; simp [JsonRpcProtocol.runFrom]
  | cons l ls ih =>
    intro k h
    obtain ⟨kvs, rfl⟩ := h _ (List.mem_cons_self l ls)
    have harith : k + (ls.length + 1) = (k + 1) + ls.length := by omega
    simp only [List.cons_append, JsonRpcProtocol.runFrom,
      JsonRpcProtocol.read_request, List.length_cons, harith,
      ih (k + 1) (fun x hx => h x (List.mem_cons_of_mem _ hx))]
    rw [Prod.mk.injEq,
      show ls.append tail = ls ++ tail from rfl,
      ih (k + 1) (fun x hx => h x (List.mem_cons_of_mem _ hx))]
    constructor <;> simp

/-- C3, counterexample.  Stream: a malformed line followed by a valid ping
request.  The run writes the Parse-Error response and then stops: the valid
second line receives no dispatch and no response, refuting the part of the
claim that says the loop continues processing subsequent lines. -/
theorem run_malformed_line_kills_loop :
    JsonRpcProtocol.run handlers0 gen0
        [Line.malformed "Expecting value: line 1 column 1",
         Line.parsed (.obj [("method", .str "ping"), ("id", .num 1)])]
      = ([JsonRpcResponse.mkError JsonRpcProtocol.PARSE_ERROR "Parse error"
            (some (.str "Expecting value: line 1 column 1")) .null], []) := rfl

/-- C3, amended: a malformed JSON line still yields an immediate
Parse-Error response (code -32700) without dispatching any handler, but the
loop then terminates exactly as at end-of-stream: lines after the malformed
one are never read or processed (read_request returns None for both a parse
failure and end-of-stream, and run breaks on None). -/
theorem run_parse_error_stops_loop (hs : Handlers) (gen : Nat → String)
    (good : List Line) (m : String) (rest : List Line)
    (hgood : ∀ l ∈ good, ∃ kvs, l = Line.parsed (.obj kvs)) :
    JsonRpcProtocol.run hs gen (good ++ Line.malformed m :: rest)
      = ((JsonRpcProtocol.run hs gen good).1
           ++ [JsonRpcResponse.mkError JsonRpcProtocol.PARSE_ERROR "Parse error"
                 (some (.str m)) .null],
         (JsonRpcProtocol.run hs gen good).2) := by
  unfold JsonRpcProtocol.run
  rw [runFrom_append hs gen good (Line.malformed m :: rest) 0 hgood]
  simp [JsonRpcProtocol.runFrom, JsonRpcProtocol.read_request]

/-- C3, witness: one good request, then a malformed line, then another
request that is never reached. -/
theorem run_parse_error_stops_loop_witness :
    JsonRpcProtocol.run handlers0 gen0
        ([Line.parsed (.obj [("method", .str "ping"), ("id", .num 5)])]
          ++ Line.malformed "bad json"
            :: [Line.parsed (.obj [("method", .str "ping"), ("id", .num 6)])])
      = ((JsonRpcProtocol.run handlers0 gen0
            [Line.parsed (.obj [("method", .str "ping"), ("id", .num 5)])]).1
           ++ [JsonRpcResponse.mkError JsonRpcProtocol.PARSE_ERROR "Parse error"
                 (some (.str "bad json")) .null],
         (JsonRpcProtocol.run handlers0 gen0
            [Line.parsed (.obj [("method", .str "ping"), ("id", .num 5)])]).2) :=
  run_parse_error_stops_loop handlers0 gen0
    [Line.parsed (.obj [("method", .str "ping"), ("id", .num 5)])] "bad json"
    [Line.parsed (.obj [("method", .str "ping"), ("id", .num 6)])]
    (by intro l hl; rw [List.mem_singleton] at hl; exact ⟨_, hl⟩)

/-- C4, counterexample.  A decoded request whose id field is null: the
handler runs, and a response IS written back, carrying a freshly generated
uuid id - refuting the claim that no response is written. -/
theorem null_id_notification_gets_response :
    JsonRpcProtocol.run handlers0 gen0
        [Line.parsed (.obj [("method", .str "ping"), ("id", .null)])]
      = ([JsonRpcResponse.mkSuccess (.str "pong") (.str "uuid-0")], ["ping"]) := rfl

/-- C4, amended: a decoded request with a null (or absent) id has its id
replaced by a generated uuid string at construction, after which it is
handled like any other request: the registered handler executes AND a
response carrying the generated id is written back. -/
theorem null_id_request_handled_with_generated_id (hs : Handlers)
    (gen : Nat → String) (kvs : Obj) (rest : List Line)
    (hid : dictGetD kvs "id" .null = .null)
    (hmeth : (findHandler hs (JsonRpcRequest.from_dict kvs (gen 0)).method).isSome = true)
    (hparams : ∃ pkvs, (JsonRpcRequest.from_dict kvs (gen 0)).params = .obj pkvs) :
    (JsonRpcRequest.from_dict kvs (gen 0)).id = .str (gen 0) ∧
    JsonRpcProtocol.run hs gen (Line.parsed (.obj kvs) :: rest)
      = (JsonRpcProtocol.handle_request hs (JsonRpcRequest.from_dict kvs (gen 0))
           :: (JsonRpcProtocol.runFrom hs gen 1 rest).1,
         (JsonRpcRequest.from_dict kvs (gen 0)).method
           :: (JsonRpcProtocol.runFrom hs gen 1 rest).2) := by
  obtain ⟨hnd, hh⟩ := Option.isSome_iff_exists.mp hmeth
  obtain ⟨pkvs, hp⟩ := hparams
  constructor
  · simp [JsonRpcRequest.from_dict, JsonRpcRequest.make, hid, JVal.truthy]
  · simp [JsonRpcProtocol.run, JsonRpcProtocol.runFrom,
      JsonRpcProtocol.read_request, invokedMethods, hh, hp]

/-- C4, witness: a ping request with no id field at all (data.get returns
None for it, like an explicit null). -/
theorem null_id_request_handled_witness :
    (JsonRpcRequest.from_dict [("method", .str "ping")] (gen0 0)).id
        = .str (gen0 0) ∧
    JsonRpcProtocol.run handlers0 gen0 [Line.parsed (.obj [("method", .str "ping")])]
      = (JsonRpcProtocol.handle_request handlers0
           (JsonRpcRequest.from_dict [("method", .str "ping")] (gen0 0))
           :: (JsonRpcProtocol.runFrom handlers0 gen0 1 []).1,
         (JsonRpcRequest.from_dict [("method", .str "ping")] (gen0 0)).method
           :: (JsonRpcProtocol.runFrom handlers0 gen0 1 []).2) :=
  null_id_request_handled_with_generated_id handlers0 gen0
    [("method", .str "ping")] [] rfl rfl ⟨[], rfl⟩

/-- A registry holding one loaded, enabled engine named real. -/
def reg5 : EngineRegistry :=
  { engines_dir := "engines"
    engines := [{ name := "real", module_path := "engines/real.py",
                  categories := ["music"], about := [],
                  hasModule := true, enabled := true }] }

/-- A pipeline oracle that always parses an empty result list. -/
def pl5 : Pipeline := fun _ _ _ => .ok []

/-- C5, counterexample.  Dispatching search for the unknown engine ghost
produces a response whose error field is empty - a success envelope whose
payload merely says success=false - so no RPC error (neither -32603 nor any
code below -32000) is returned, refuting the claim. -/
theorem search_unknown_engine_no_rpc_error :
    (JsonRpcProtocol.handle_request (EngineService.handlers reg5 pl5 0)
        { jsonrpc := "2.0", method := "search",
          params := .obj [("engine", .str "ghost"), ("query", .str "test")],
          id := .num 7 }).error = none ∧
    (JsonRpcProtocol.handle_request (EngineService.handlers reg5 pl5 0)
        { jsonrpc := "2.0", method := "search",
          params := .obj [("engine", .str "ghost"), ("query", .str "test")],
          id := .num 7 }).result
      = .obj [("success", .bool false), ("engine", .str "ghost"),
              ("query", .str "test"),
              ("error", .str "Engine \x27ghost\x27 not found or disabled"),
              ("response_time", .num 0)] := ⟨rfl, rfl⟩

/-- C5, amended: calling the search method with an engine name absent from
the registry yields a SUCCESS RPC envelope (error field empty, original id
echoed) whose result payload has success=false and the not-found message;
handle_search catches the ValueError before the protocol layer could map it
to any error code. -/
theorem search_unknown_engine_success_envelope (reg : EngineRegistry)
    (pl : Pipeline) (rt : Int) (ename q : String) (id : JVal)
    (hnot : reg.get_engine ename = none) :
    JsonRpcProtocol.handle_request (EngineService.handlers reg pl rt)
        { jsonrpc := "2.0", method := "search",
          params := .obj [("engine", .str ename), ("query", .str q)], id := id }
      = JsonRpcResponse.mkSuccess
          (.obj [("success", .bool false), ("engine", .str ename),
                 ("query", .str q),
                 ("error", .str ("Engine \x27" ++ ename ++ "\x27 not found or disabled")),
                 ("response_time", .num rt)]) id := by
  simp [JsonRpcProtocol.handle_request, EngineService.handlers, findHandler,
    List.find?, callHandler, EngineService.searchHandler, dictGet,
    EngineService.handle_search, EngineRegistry.search, hnot]

/-- C5, witness: the amended theorem at the concrete one-engine registry
and the unknown name ghost. -/
theorem search_unknown_engine_success_envelope_witness :
    JsonRpcProtocol.handle_request (EngineService.handlers reg5 pl5 3)
        { jsonrpc := "2.0", method := "search",
          params := .obj [("engine", .str "ghost"), ("query", .str "abba")],
          id := .str "z" }
      = JsonRpcResponse.mkSuccess
          (.obj [("success", .bool false), ("engine", .str "ghost"),
                 ("query", .str "abba"),
                 ("error", .str ("Engine \x27" ++ "ghost" ++ "\x27 not found or disabled")),
                 ("response_time", .num 3)]) (.str "z") :=
  search_unknown_engine_success_envelope reg5 pl5 3 "ghost" "abba" (.str "z") rfl

/-- The results one search call contributes to the loop of search_all:
its list on success, nothing when its exception is swallowed. -/
def contributedResults : PyResult (List Obj) → List Obj
  | .ok rs => rs
  | .raised _ => []

/-- In a registry with pairwise distinct engine names (a dict key is
unique), looking an engine of the list up by its own name finds it. -/
theorem find_name_of_mem (l : List EngineInfo) (e : EngineInfo)
    (hnodup : (l.map (fun x => x.name)).Nodup) (he : e ∈ l) :
    l.find? (fun x => x.name == e.name) = some e := by
  induction l with
  | nil => cases he
  | cons a rest ih =>
    rcases List.mem_cons.mp he with rfl | hmem
    · simp [List.find?]
    · have hne : (a.name == e.name) = false := by
        rw [beq_eq_false_iff_ne]
        intro hEq
        apply (List.nodup_cons.mp hnodup).1
        show a.name ∈ List.map (fun x => x.name) rest
        rw [hEq]
        exact List.mem_map_of_mem (fun x => x.name) hmem
      simp only [List.find?, hne]
      exact ih (List.nodup_cons.mp hnodup).2 hmem

/-- The result component of the search_all loop is the concatenation, in
iteration order, of what each engine contributes. -/
theorem search_all_fold_results (reg : EngineRegistry) (pl : Pipeline)
    (q : String) (p : Obj) :
    ∀ (l : List EngineInfo) (acc : List Obj) (tr : List Ev),
    (l.foldl
      (fun acc engine =>
        ((match reg.search pl engine.name q p with
          | .ok results => acc.1 ++ results
          | .raised _ => acc.1),
         acc.2 ++ [.start engine.name, .finish engine.name]))
      (acc, tr)).1
      = acc ++ l.flatMap (fun e => contributedResults (reg.search pl e.name q p)) := by
  intro l
  induction l with
  | nil => intro acc tr; simp
  | cons e rest ih =>
    intro acc tr
    rcases hs : reg.search pl e.name q p with rs | m <;>
      simp [List.foldl_cons, hs, ih, contributedResults, List.append_assoc]

/-- search_all equals the in-order concatenation of per-engine
contributions over the enabled engines. -/
theorem search_all_eq_flatMap (reg : EngineRegistry) (pl : Pipeline)
    (q : String) (p : Obj) :
    reg.search_all pl q p
      = reg.get_enabled_engines.flatMap
          (fun e => contributedResults (reg.search pl e.name q p)) := by
  unfold EngineRegistry.search_all EngineRegistry.search_all_traced
  exact search_all_fold_results reg pl q p reg.get_enabled_engines [] []

/-- Dropping the engines whose contribution is empty for one marked name. -/
theorem flatMap_eq_filter_flatMap {α : Type} (f g : α → List Obj)
    (p : α → Bool) :
    ∀ l : List α, (∀ e ∈ l, f e = if p e then [] else g e) →
    l.flatMap f = (l.filter (fun e => !p e)).flatMap g := by
  intro l
  induction l with
  | nil => intro _; rfl
  | cons a rest ih =>
    intro h
    have ha := h a (List.mem_cons_self a rest)
    have hrest := fun x hx => h x (List.mem_cons_of_mem _ hx)
    rcases hp : p a with _ | _ <;>
      simp_all [List.flatMap_cons, List.filter_cons, ih hrest]

/-- C1, confirmed.  search_all over a registry in which exactly one
pipeline raises: the merged list is exactly the concatenation, in
adapter-iteration order, of the tagged results of the other enabled
engines, and the call is a total function - the per-engine
try/except swallows the failure instead of propagating it. -/
theorem searchAll_isolates_single_failure (reg : EngineRegistry)
    (pl : Pipeline) (q : String) (p : Obj) (fname msg : String)
    (res : String → List Obj)
    (hnodup : (reg.engines.map (fun x => x.name)).Nodup)
    (hmod : ∀ e ∈ reg.engines, e.hasModule = true)
    (hfail : pl fname q p = .raised msg)
    (hok : ∀ e ∈ reg.get_enabled_engines, e.name ≠ fname →
      pl e.name q p = .ok (res e.name)) :
    reg.search_all pl q p
      = (reg.get_enabled_engines.filter (fun e => !(e.name == fname))).flatMap
          (fun e => (res e.name).map (fun r => dictSet r "engine" (.str e.name))) := by
  rw [search_all_eq_flatMap]
  apply flatMap_eq_filter_flatMap
  intro e he
  have hmem : e ∈ reg.engines := List.mem_of_mem_filter he
  have hen : e.enabled = true := by
    have := List.of_mem_filter he
    simpa using this
  have hget : reg.get_engine e.name = some e :=
    find_name_of_mem reg.engines e hnodup hmem
  rcases hp : (e.name == fname) with _ | _
  · have hne : e.name ≠ fname := by
      intro hEq; rw [hEq] at hp; simp at hp
    rw [EngineRegistry.search, hget]
    simp [hen, hmod e hmem, hok e he hne, contributedResults]
  · have hEq : e.name = fname := by
      exact beq_iff_eq.mp hp
    rw [EngineRegistry.search, hget]
    simp [hen, hmod e hmem, hEq, hfail, contributedResults]

/-- A discovered, enabled engine as the registry builds it. -/
def mkEng (n : String) : EngineInfo :=
  { name := n, module_path := "engines/" ++ n ++ ".py",
    categories := ["music"], about := [], hasModule := true, enabled := true }

def reg1 : EngineRegistry :=
  { engines_dir := "engines", engines := [mkEng "alpha", mkEng "beta", mkEng "gamma"] }

/-- Three pipelines: beta raises, the others parse one titled result. -/
def pl1 : Pipeline := fun n _ _ =>
  if n == "beta" then .raised "boom"
  else .ok [[("title", .str ("t-" ++ n))]]

def res1 : String → List Obj := fun n => [[("title", .str ("t-" ++ n))]]

/-- C1, witness: three enabled engines with beta failing; the merged list
is the tagged alpha and gamma contributions in iteration order. -/
theorem searchAll_isolates_single_failure_witness :
    reg1.search_all pl1 "q" []
      = (reg1.get_enabled_engines.filter (fun e => !(e.name == "beta"))).flatMap
          (fun e => (res1 e.name).map (fun r => dictSet r "engine" (.str e.name))) :=
  searchAll_isolates_single_failure reg1 pl1 "q" [] "beta" "boom" res1
    (by decide) (by decide) rfl
    (by intro e _ hne; simp [pl1, res1, hne])

def reg2 : EngineRegistry :=
  { engines_dir := "engines", engines := [mkEng "alpha", mkEng "beta"] }

/-- Alpha parses one result; beta times out with an exception. -/
def pl2 : Pipeline := fun n _ _ =>
  if n == "beta" then .raised "timeout" else .ok [[("title", .str "t1")]]

/-- C2, counterexample.  A search_all over two adapters with beta failing:
the response carries no perEngineStatus key at all, and the failed adapter
beta has no entry anywhere - results_by_engine only lists alpha.  This
refutes the claim that every target adapter gets a status entry. -/
theorem handleSearchAll_no_perEngineStatus :
    dictGet (EngineService.handle_search_all reg2 pl2 "q" [] 0) "perEngineStatus"
        = none ∧
    dictGet (EngineService.handle_search_all reg2 pl2 "q" [] 0) "results_by_engine"
        = some (.obj [("alpha",
            .arr [.obj [("title", .str "t1"), ("engine", .str "alpha")]])]) :=
  ⟨rfl, rfl⟩

/-- C2, amended: the aggregated response of handle_search_all consists of
exactly the keys success, query, results, results_by_engine, total_count,
engine_count and response_time - no perEngineStatus map exists, and only
engines contributing at least one result appear in results_by_engine (an
adapter that failed or timed out leaves no trace); total_count counts the
merged results. -/
theorem handleSearchAll_response_shape (reg : EngineRegistry) (pl : Pipeline)
    (q : String) (p : Obj) (rt : Int) :
    (EngineService.handle_search_all reg pl q p rt).map Prod.fst
        = ["success", "query", "results", "results_by_engine",
           "total_count", "engine_count", "response_time"] ∧
    dictGet (EngineService.handle_search_all reg pl q p rt) "perEngineStatus"
        = none ∧
    dictGet (EngineService.handle_search_all reg pl q p rt) "total_count"
        = some (.num (reg.search_all pl q p).length) :=
  ⟨rfl, rfl, rfl⟩

/-- The trace component of the search_all loop: each iteration appends its
own start/finish bracket, in iteration order. -/
theorem search_all_fold_trace (reg : EngineRegistry) (pl : Pipeline)
    (q : String) (p : Obj) :
    ∀ (l : List EngineInfo) (acc : List Obj) (tr : List Ev),
    (l.foldl
      (fun acc engine =>
        ((match reg.search pl engine.name q p with
          | .ok results => acc.1 ++ results
          | .raised _ => acc.1),
         acc.2 ++ [.start engine.name, .finish engine.name]))
      (acc, tr)).2
      = tr ++ l.flatMap (fun e => [Ev.start e.name, Ev.finish e.name]) := by
  intro l
  induction l with
  | nil => intro acc tr; simp
  | cons e rest ih =>
    intro acc tr
    rcases hs : reg.search pl e.name q p with rs | m <;>
      simp [List.foldl_cons, hs, ih, List.append_assoc]

/-- C9, amended: within one search_all call the per-adapter pipelines run
strictly sequentially in adapter-iteration order - the trace of every call
is start/finish brackets one after another, each pipeline finishing before
the next one starts; nothing runs concurrently (the source is a plain
synchronous for-loop). -/
theorem search_all_trace_sequential (reg : EngineRegistry) (pl : Pipeline)
    (q : String) (p : Obj) :
    (reg.search_all_traced pl q p).2
      = reg.get_enabled_engines.flatMap
          (fun e => [Ev.start e.name, Ev.finish e.name]) := by
  unfold EngineRegistry.search_all_traced
  exact search_all_fold_trace reg pl q p reg.get_enabled_engines [] []

/-- First position of an event in a trace. -/
def evFirstIdx (t : List Ev) (e : Ev) : Option Nat := t.findIdx? (fun x => x == e)

/-- Two named pipelines overlap in a trace when both run at some instant:
each one starts before the other finishes. -/
def pipelinesOverlap (t : List Ev) (a b : String) : Bool :=
  match evFirstIdx t (.start a), evFirstIdx t (.finish a),
        evFirstIdx t (.start b), evFirstIdx t (.finish b) with
  | some sa, some fa, some sb, some fb => decide (sa < fb) && decide (sb < fa)
  | _, _, _, _ => false

def tracedEngines (t : List Ev) : List String :=
  t.filterMap (fun e => match e with | .start n => some n | .finish _ => none)

def anyPipelinesOverlap (t : List Ev) : Bool :=
  (tracedEngines t).any (fun a =>
    (tracedEngines t).any (fun b => a != b && pipelinesOverlap t a b))

/-- C9, counterexample.  Two target adapters: the unique execution trace is
the fully sequential one (alpha finishes before beta starts) and no two
distinct pipelines overlap, refuting the claim that the per-adapter
pipelines execute as concurrent tasks rather than one after another. -/
theorem search_all_not_concurrent :
    (reg2.search_all_traced pl2 "q" []).2
        = [.start "alpha", .finish "alpha", .start "beta", .finish "beta"] ∧
    anyPipelinesOverlap ((reg2.search_all_traced pl2 "q" []).2) = false :=
  ⟨rfl, rfl⟩

/-- Candidate files that contribute no engine leave the fold state alone. -/
theorem discover_fold_no_yield (dir : String) (files : List ModuleFile)
    (h : ∀ f ∈ files, (loadYields dir f).isNone = true) :
    ∀ acc : List EngineInfo,
    files.foldl
      (fun acc f =>
        if pyStartsWith f.fileName "__" || f.fileName == "base_music.py" then acc
        else
          match loadEngineInfo dir f with
          | .raised _ => acc
          | .ok none => acc
          | .ok (some info) => dictInsertEngine acc info)
      acc = acc := by
  induction files with
  | nil => intro acc; rfl
  | cons f rest ih =>
    intro acc
    have hf := h f (List.mem_cons_self f rest)
    have hrest := fun x hx => h x (List.mem_cons_of_mem _ hx)
    rw [List.foldl_cons]
    unfold loadYields at hf
    rcases hskip : (pyStartsWith f.fileName "__" || f.fileName == "base_music.py") with _ | _
    · rw [hskip] at hf
      simp only [Bool.false_eq_true, if_false] at hf ⊢
      rcases hload : loadEngineInfo dir f with v | m
      · rcases v with _ | info
        · exact ih hrest acc
        · rw [hload] at hf; simp [Option.isNone] at hf
      · exact ih hrest acc
    · simp only [hskip, if_true]
      exact ih hrest acc

/-- C10, confirmed.  Constructing a registry over a missing engines
directory raises ValueError before any scanning, while a directory whose
files are all malformed (skipped by name, failing to load, or lacking the
request/response contract) degrades to a registry with zero engines. -/
theorem registry_init_missing_dir_raises :
    (∀ dir : String,
      EngineRegistry.init dir none
        = .error ("Engines directory not found: " ++ dir)) ∧
    (∀ (dir : String) (files : List ModuleFile),
      (∀ f ∈ files, (loadYields dir f).isNone = true) →
      EngineRegistry.init dir (some files)
        = .ok { engines_dir := dir, engines := [] }) := by
  constructor
  · intro dir; rfl
  · intro dir files h
    have hd : discoverEngines dir (some files) = .ok [] := by
      unfold discoverEngines
      exact congrArg Except.ok (discover_fold_no_yield dir files h [])
    unfold EngineRegistry.init
    rw [hd]

/-- A file whose module raises at import time. -/
def badFile : ModuleFile :=
  { fileName := "broken.py", specOk := true, execRaises := some "SyntaxError",
    hasRequest := false, hasResponse := false, categories := none, about := none }

/-- C10, witness: the missing directory raises; a directory holding only
the broken adapter file yields the empty registry. -/
theorem registry_init_missing_dir_raises_witness :
    EngineRegistry.init "engines" none
        = .error ("Engines directory not found: " ++ "engines") ∧
    EngineRegistry.init "engines" (some [badFile])
        = .ok { engines_dir := "engines", engines := [] } :=
  ⟨registry_init_missing_dir_raises.1 "engines",
   registry_init_missing_dir_raises.2 "engines" [badFile] (by decide)⟩

/-- Setting one key leaves every other key of a dict unchanged. -/
theorem dictGet_dictSet_ne (d : Obj) (k1 k : String) (v : JVal)
    (h : ¬ k1 = k) :
    dictGet (dictSet d k1 v) k = dictGet d k := by
  induction d with
  | nil =>
    have hb : (k1 == k) = false := beq_eq_false_iff_ne.mpr h
    simp [dictSet, dictGet, List.find?, hb]
  | cons a rest ih =>
    rcases a with ⟨ka, va⟩
    rcases hka : (ka == k1) with _ | _
    · rcases hkk : (ka == k) with _ | _
      · simp only [dictSet, hka, Bool.false_eq_true, if_false]
        simp only [dictGet, List.find?, hkk]
        exact ih
      · simp [dictSet, dictGet, List.find?, hka, hkk]
    · have hkaeq : ka = k1 := beq_iff_eq.mp hka
      have hkk : (ka == k) = false := beq_eq_false_iff_ne.mpr (by rw [hkaeq]; exact h)
      simp [dictSet, dictGet, List.find?, hka, hkk]

/-- After SETEX, looking the written key up finds the fresh entry. -/
theorem find_upsert (l : List StoredEntry) (e : StoredEntry) :
    (upsertEntry l e).find? (fun x => x.key == e.key) = some e := by
  induction l with
  | nil => simp [upsertEntry, List.find?]
  | cons a rest ih =>
    rcases hka : (a.key == e.key) with _ | _
    · simp only [upsertEntry, hka, Bool.false_eq_true, if_false]
      simp only [List.find?, hka]
      exact ih
    · simp [upsertEntry, hka, List.find?]

/-- A results list within the cap is not truncated. -/
theorem truncResults_of_small (maxR : Nat) (results : Obj)
    (h : ∀ rs, dictGet results "results" = some (.arr rs) → rs.length ≤ maxR) :
    truncResults maxR results = results := by
  unfold truncResults
  rcases hg : dictGet results "results" with _ | v
  · rfl
  · rcases v with _ | b | n | q | s | xs | kvs
    · rfl
    · rfl
    · rfl
    · rfl
    · rfl
    · simp [Nat.not_lt.mpr (h xs hg)]
    · rfl

/-- The cache_data dict that set stores when no truncation occurs: the
response merged with the three cache metadata fields. -/
def mergedCacheData (svc : CacheService) (now : Nat) (query : String)
    (engines categories : Option (List String)) (ttlArg : Option Nat)
    (results : Obj) : Obj :=
  dictSet (dictSet (dictSet results
    "cached_at" (.str (isoTimestamp now)))
    "cache_ttl" (.num (svc.effTtl ttlArg)))
    "cache_key" (.str (svc.generate_cache_key query engines categories))

/-- find_upsert with the written entry spelled out. -/
theorem find_upsert_mk (l : List StoredEntry) (k : String) (v : JVal) (t : Nat) :
    (upsertEntry l { key := k, value := v, expireAt := t }).find?
        (fun x => x.key == k)
      = some { key := k, value := v, expireAt := t } :=
  find_upsert l { key := k, value := v, expireAt := t }

/-- C6, amended: on a working backend, Set stores and a Get of the same
request before TTL expiry hits - but the returned payload is not the stored
response itself: it is the response merged with the cache metadata fields
cached_at, cache_ttl and cache_key (and truncated when over the results
cap).  On every key other than those three metadata keys the payload equals
the response (stated here for responses within the cap). -/
theorem cache_round_trip_with_metadata (svc : CacheService) (st : RedisState)
    (now tGet : Nat) (query : String) (results : Obj)
    (engines categories : Option (List String)) (ttlArg : Option Nat)
    (hconn : svc.connected = true)
    (hsize : ∀ rs, dictGet results "results" = some (.arr rs) →
      rs.length ≤ svc.max_results_per_query)
    (hfresh : tGet < now + svc.effTtl ttlArg) :
    (svc.set st now query results engines categories ttlArg).1 = true ∧
    (svc.get (svc.set st now query results engines categories ttlArg).2 tGet
        query engines categories).1
      = some (.obj (mergedCacheData svc now query engines categories ttlArg results)) ∧
    ∀ k : String, ¬ k = "cached_at" → ¬ k = "cache_ttl" → ¬ k = "cache_key" →
      dictGet (mergedCacheData svc now query engines categories ttlArg results) k
        = dictGet results k := by
  have htr : truncResults svc.max_results_per_query results = results :=
    truncResults_of_small _ _ hsize
  have hset : svc.set st now query results engines categories ttlArg
      = (true,
        { entries := upsertEntry st.entries
            { key := svc.generate_cache_key query engines categories
              value := .obj (mergedCacheData svc now query engines categories ttlArg results)
              expireAt := now + svc.effTtl ttlArg }
          hits := st.hits
          misses := st.misses
          sets := st.sets + 1
          popular := zincr st.popular query }) := by
    simp only [CacheService.set, hconn, Bool.true_eq_false, if_false, htr,
      mergedCacheData]
  refine ⟨by rw [hset], ?_, ?_⟩
  · rw [hset]
    simp only [CacheService.get, hconn, Bool.true_eq_false, if_false,
      RedisState.lookupKey, find_upsert_mk, if_pos hfresh]
  · intro k h1 h2 h3
    unfold mergedCacheData
    rw [dictGet_dictSet_ne _ _ _ _ (fun he => h3 he.symm),
        dictGet_dictSet_ne _ _ _ _ (fun he => h2 he.symm),
        dictGet_dictSet_ne _ _ _ _ (fun he => h1 he.symm)]

/-- A connected cache service whose hash stand-in is a fixed 16-hex token
(the MD5 digest enters the model as an opaque deterministic function). -/
def svc6 : CacheService :=
  { default_ttl := 3600, max_results_per_query := 100, connected := true,
    md5hex := fun _ => "0123456789abcdef" }

def st0 : RedisState :=
  { entries := [], hits := 0, misses := 0, sets := 0, popular := [] }

/-- C6, witness: set at instant 0 with the default TTL, get at instant 10. -/
theorem cache_round_trip_with_metadata_witness :
    (svc6.set st0 0 "q" [("total_count", .num 2)] none none none).1 = true ∧
    (svc6.get (svc6.set st0 0 "q" [("total_count", .num 2)] none none none).2 10
        "q" none none).1
      = some (.obj (mergedCacheData svc6 0 "q" none none none
          [("total_count", .num 2)])) ∧
    ∀ k : String, ¬ k = "cached_at" → ¬ k = "cache_ttl" → ¬ k = "cache_key" →
      dictGet (mergedCacheData svc6 0 "q" none none none [("total_count", .num 2)]) k
        = dictGet [("total_count", .num 2)] k :=
  cache_round_trip_with_metadata svc6 st0 0 10 "q" [("total_count", .num 2)]
    none none none rfl (fun _ hk => nomatch hk) (by decide)

/-- C6, counterexample.  After Set of the payload containing only
total_count, the Get before expiry returns that payload with three extra
keys (cached_at, cache_ttl, cache_key) merged in - a dict with four keys,
not equal to the stored response, which has no cached_at binding at all. -/
theorem cache_get_returns_augmented_payload :
    (svc6.get (svc6.set st0 0 "q" [("total_count", .num 2)] none none none).2 10
        "q" none none).1
      = some (.obj [("total_count", .num 2),
          ("cached_at", .str "1970-01-01T00:00:0"),
          ("cache_ttl", .num 3600),
          ("cache_key", .str "search:v1:0123456789abcdef")]) ∧
    dictGet [("total_count", .num 2)] "cached_at" = none :=
  ⟨rfl, rfl⟩

/-- Python sorted() depends only on the multiset of its input. -/
theorem sortStrings_congr {l1 l2 : List String} (h : l1.Perm l2) :
    sortStrings l1 = sortStrings l2 := by
  unfold sortStrings
  have hc : (l1 : Multiset String) = (l2 : Multiset String) :=
    Multiset.coe_eq_coe.mpr h
  rw [hc]

/-- The engines_str fragment is invariant under reordering, with None and
the empty list both giving "all". -/
theorem joinField_perm {e1 e2 : Option (List String)}
    (h : (e1.getD []).Perm (e2.getD [])) : joinField e1 = joinField e2 := by
  match e1, e2 with
  | none, none => rfl
  | none, some l2 =>
    have : l2 = [] := (h.symm : l2.Perm []).eq_nil
    rw [this]
    rfl
  | some l1, none =>
    have : l1 = [] := (h : l1.Perm []).eq_nil
    rw [this]
    rfl
  | some [], some [] => rfl
  | some [], some (y :: ys) =>
    exact absurd ((h.symm : (y :: ys).Perm []).eq_nil) (by simp)
  | some (x :: xs), some [] =>
    exact absurd ((h : (x :: xs).Perm []).eq_nil) (by simp)
  | some (x :: xs), some (y :: ys) =>
    show String.intercalate "," (sortStrings (x :: xs))
        = String.intercalate "," (sortStrings (y :: ys))
    have h2 : (x :: xs).Perm (y :: ys) := h
    rw [sortStrings_congr h2]

/-- C7, confirmed.  Requests differing only in letter case or surrounding
whitespace of the query (their normalized queries agree) or only in the
ordering of the engine list produce identical cache keys. -/
theorem cache_key_normalization (svc : CacheService) (q1 q2 : String)
    (e1 e2 cats : Option (List String))
    (hq : pyStrip (pyLower q1) = pyStrip (pyLower q2))
    (he : (e1.getD []).Perm (e2.getD [])) :
    svc.generate_cache_key q1 e1 cats = svc.generate_cache_key q2 e2 cats := by
  unfold CacheService.generate_cache_key
  rw [hq, joinField_perm he]

def svc7 : CacheService :=
  { default_ttl := 3600, max_results_per_query := 100, connected := true,
    md5hex := fun s => s }

/-- C7, witness: query differing in case and surrounding whitespace, engine
list differing in order. -/
theorem cache_key_normalization_witness :
    svc7.generate_cache_key "  ROCK " (some ["b", "a"]) none
      = svc7.generate_cache_key "rock" (some ["a", "b"]) none :=
  cache_key_normalization svc7 "  ROCK " "rock" (some ["b", "a"])
    (some ["a", "b"]) none (by decide) (by decide)

/-- Round half to even lands within half a unit of its argument. -/
theorem abs_roundHalfEven_sub (q : ℚ) : |(roundHalfEven q : ℚ) - q| ≤ 1 / 2 := by
  have h0 : ((⌊q⌋ : ℤ) : ℚ) ≤ q := Int.floor_le q
  have h1 : q < ((⌊q⌋ : ℤ) : ℚ) + 1 := Int.lt_floor_add_one q
  unfold roundHalfEven
  split_ifs with hlt hgt hev
  · rw [abs_le]; constructor <;> linarith
  · rw [not_lt] at hlt
    rw [abs_le]; push_cast; constructor <;> linarith
  · rw [not_lt] at hlt hgt
    rw [abs_le]; constructor <;> linarith
  · rw [not_lt] at hlt hgt
    rw [abs_le]; push_cast; constructor <;> linarith

/-- Two-decimal rounding lands within half of one hundredth. -/
theorem abs_pyRound2_sub (q : ℚ) : |pyRound2 q - q| ≤ 1 / 200 := by
  have h := abs_roundHalfEven_sub (q * 100)
  unfold pyRound2
  have heq : (roundHalfEven (q * 100) : ℚ) / 100 - q
      = ((roundHalfEven (q * 100) : ℚ) - q * 100) / 100 := by ring
  rw [heq, abs_div]
  have habs : |(100 : ℚ)| = 100 := by norm_num
  rw [habs]
  linarith

/-- C8, amended: the hit_rate reported by get_stats is the PERCENTAGE
100 times hits/(hits+misses), rounded to two decimals (the source rounds
the binary-float product; the model rounds the exact rational): it lies
within 1/200 of that percentage, and the hits+misses = 0 case returns 0.0
without error.  It is not the bare ratio hits/(hits+misses). -/
theorem hit_rate_percentage_rounded :
    (∀ (svc : CacheService) (st : RedisState) (now : Nat),
      svc.connected = true →
      dictGet (svc.get_stats st now) "hit_rate"
        = some (.rat (calculate_hit_rate st.hits st.misses))) ∧
    (∀ hits misses : Nat, hits + misses ≠ 0 →
      |calculate_hit_rate hits misses
        - (hits : ℚ) / ((hits : ℚ) + (misses : ℚ)) * 100| ≤ 1 / 200) ∧
    (∀ hits misses : Nat, hits + misses = 0 →
      calculate_hit_rate hits misses = 0) := by
  refine ⟨?_, ?_, ?_⟩
  · intro svc st now hconn
    unfold CacheService.get_stats
    rw [hconn]
    rfl
  · intro hits misses hne
    have hb : ¬ ((hits + misses == 0) = true) := by simpa using hne
    unfold calculate_hit_rate
    rw [if_neg hb]
    exact abs_pyRound2_sub _
  · intro hits misses h0
    unfold calculate_hit_rate
    rw [if_pos (by simpa using h0)]

def svc8 : CacheService :=
  { default_ttl := 3600, max_results_per_query := 100, connected := true,
    md5hex := fun _ => "h" }

/-- One hit and one miss recorded. -/
def st8 : RedisState :=
  { entries := [], hits := 1, misses := 1, sets := 0, popular := [] }

/-- C8, witness: the amended theorem at one hit and one miss, and at the
empty counters. -/
theorem hit_rate_percentage_rounded_witness :
    dictGet (svc8.get_stats st8 0) "hit_rate"
        = some (.rat (calculate_hit_rate st8.hits st8.misses)) ∧
    |calculate_hit_rate 1 1
        - ((1 : ℕ) : ℚ) / (((1 : ℕ) : ℚ) + ((1 : ℕ) : ℚ)) * 100| ≤ 1 / 200 ∧
    calculate_hit_rate 0 0 = 0 :=
  ⟨hit_rate_percentage_rounded.1 svc8 st8 0 rfl,
   hit_rate_percentage_rounded.2.1 1 1 (by decide),
   hit_rate_percentage_rounded.2.2 0 0 rfl⟩

/-- C8, counterexample.  With one hit and one miss the reported rate is 50
(a rounded percentage), while hits/(hits+misses) is 1/2: the claim that the
reported hit rate equals hits/(hits+misses) fails. -/
theorem hit_rate_is_not_the_ratio :
    dictGet (svc8.get_stats st8 0) "hit_rate" = some (.rat 50) ∧
    ((st8.hits : ℚ) / ((st8.hits : ℚ) + (st8.misses : ℚ))) = 1 / 2 ∧
    (50 : ℚ) ≠ 1 / 2 := by
  have h1 : dictGet (svc8.get_stats st8 0) "hit_rate"
      = some (.rat (calculate_hit_rate st8.hits st8.misses)) := rfl
  have h2 : calculate_hit_rate st8.hits st8.misses = 50 := by
    show calculate_hit_rate 1 1 = 50
    norm_num [calculate_hit_rate, pyRound2, roundHalfEven]
  rw [h2] at h1
  refine ⟨h1, by norm_num [st8], by norm_num⟩
